import Mathlib

/-!
Shallow embedding of the QE-Demo backend (src/server.py and src/config/server.py):
environment-keyed configuration selection, the CSV-backed admin record service
(save_admin / load_admins), and the atexit lifecycle hook (clear_csv_cache).
-/

set_option maxHeartbeats 1000000
set_option linter.unusedVariables false

namespace QEDemo

/-! ## Configuration (src/config/server.py) -/

/-- One configuration profile. Fields present only on some of the Python config
classes (`DEVELOPMENT`, the session-cookie settings, `WTF_CSRF_ENABLED`) are
modelled as `Option`, `none` meaning the attribute is absent on that class. -/
structure ServerConfig where
  DEBUG : Bool
  TESTING : Bool
  CSRF_ENABLED : Bool
  SECRET_KEY : String
  SESSION_TYPE : String
  PERMANENT_SESSION_LIFETIME : Nat
  MAX_CONTENT_LENGTH : Nat
  CSV_FILE_PATH : String
  CSV_HEADERS : List String
  DEVELOPMENT : Option Bool := none
  SESSION_COOKIE_SECURE : Option Bool := none
  SESSION_COOKIE_HTTPONLY : Option Bool := none
  SESSION_COOKIE_SAMESITE : Option String := none
  WTF_CSRF_ENABLED : Option Bool := none
deriving DecidableEq, Repr

/-- `class Config` (the base class). -/
def Config : ServerConfig :=
  { DEBUG := false
    TESTING := false
    CSRF_ENABLED := true
    SECRET_KEY := "this-should-be-changed-in-production"
    SESSION_TYPE := "filesystem"
    PERMANENT_SESSION_LIFETIME := 3600
    MAX_CONTENT_LENGTH := 16 * 1024 * 1024
    CSV_FILE_PATH := "src/models/data/users.csv"
    CSV_HEADERS := ["username", "email", "password", "role", "created"] }

/-- `class ProductionConfig(Config)`. The Python expression
`'$\x7bCSV_FILE_PATH\x7d' if '$\x7bCSV_FILE_PATH\x7d' else "src/models/data/users.csv"`
tests the truthiness of the literal string, which is non-empty, so the literal
placeholder is kept. -/
def ProductionConfig : ServerConfig :=
  { Config with
    DEBUG := false
    SECRET_KEY := "$\x7bSECRET_KEY\x7d"
    CSV_FILE_PATH :=
      if "$\x7bCSV_FILE_PATH\x7d" ≠ "" then "$\x7bCSV_FILE_PATH\x7d"
      else "src/models/data/users.csv" }

/-- `class DevelopmentConfig(Config)`. -/
def DevelopmentConfig : ServerConfig :=
  { Config with
    DEBUG := true
    DEVELOPMENT := some true
    SESSION_COOKIE_SECURE := some false
    SESSION_COOKIE_HTTPONLY := some true
    SESSION_COOKIE_SAMESITE := some "Lax" }

/-- `class TestingConfig(Config)`. -/
def TestingConfig : ServerConfig :=
  { Config with
    TESTING := true
    DEBUG := true
    CSV_FILE_PATH := "src/models/data/test_users.csv"
    WTF_CSRF_ENABLED := some false }

/-- The `config` dictionary at the bottom of src/config/server.py. A Python
dict subscript `config[env]` raises `KeyError` on a missing key, modelled as
`none`. -/
def config : String → Option ServerConfig
  | "development" => some DevelopmentConfig
  | "testing" => some TestingConfig
  | "production" => some ProductionConfig
  | "default" => some DevelopmentConfig
  | _ => none

/-- src/server.py lines 10-11:
`env = os.getenv('FLASK_ENV', 'development'); app_config = config[env]`.
The indicator is `none` when the FLASK_ENV environment variable is unset. -/
def selectConfig (indicator : Option String) : Option ServerConfig :=
  config (indicator.getD "development")

/-! ## Storage path (src/server.py lines 21-23) -/

/-- `os.path.join` on two relative/non-empty components. -/
def pathJoin (a b : String) : String := a ++ "/" ++ b

/-- `DATA_DIR = os.path.join(BASE_DIR, "src", "models", "data")`, with
`BASE_DIR` (the directory of server.py) as a parameter. -/
def DATA_DIR (baseDir : String) : String :=
  pathJoin (pathJoin (pathJoin baseDir "src") "models") "data"

/-- `csv_file_path = os.path.join(DATA_DIR, "users.csv")` (line 23). -/
def csv_file_path (baseDir : String) : String :=
  pathJoin (DATA_DIR baseDir) "users.csv"

/-- The path the record-service handlers open. Every `open(csv_file_path, ...)`
in save_admin, load_admins and clear_csv_cache uses the module-level
`csv_file_path`, which is computed from `BASE_DIR` alone (lines 21-23) and
never consults `env` or `app_config`; hence the `env` argument is unused. -/
def storagePathFor (env : String) (baseDir : String) : String :=
  csv_file_path baseDir

/-! ## JSON payload values -/

/-- Scalar JSON values that can appear in the `request.json` dict. -/
inductive JVal where
  | jstr : String → JVal
  | jnum : Int → JVal
  | jbool : Bool → JVal
  | jnull : JVal
deriving DecidableEq, Repr

/-- Python truthiness of a JSON scalar: `None`, `""`, `0` and `False` are
falsy, everything else is truthy. -/
def JVal.truthy : JVal → Bool
  | .jstr s => !(s == "")
  | .jnum n => !(n == 0)
  | .jbool b => b
  | .jnull => false

/-- The string the `csv` module writes for a cell value: strings verbatim,
`str()` of numbers and booleans, and the empty string for `None`. -/
def JVal.toCellString : JVal → String
  | .jstr s => s
  | .jnum n => toString n
  | .jbool b => if b then "True" else "False"
  | .jnull => ""

/-- The body of a POST /save_admin request: the `request.json` dict, as an
association list (first binding wins, as in a dict). -/
def Payload := List (String × JVal)

/-- `data.get(key)`: `None` (here `none`) when the key is absent. -/
def dictGet : Payload → String → Option JVal
  | [], _ => none
  | (k, v) :: rest, key => if k = key then some v else dictGet rest key

/-- Truthiness of `data.get(key)`: an absent key yields `None`, which is falsy. -/
def truthyOpt : Option JVal → Bool
  | none => false
  | some v => v.truthy

/-- The cell the csv writer produces for a (possibly absent) dict value. -/
def cellOpt : Option JVal → String
  | none => ""
  | some v => v.toCellString

/-- The duplicate check `row["email"] == email` (line 72): a Python `==`
between the stored cell string and the candidate's JSON value, true only when
the candidate value is the equal string. -/
def rowEmailMatches (cell : String) : Option JVal → Bool
  | some (.jstr t) => cell == t
  | _ => false

/-! ## Storage file state and record service (src/server.py) -/

/-- One data row of users.csv, under the fixed five-column schema. -/
structure AdminRecord where
  username : String
  email : String
  password : String
  role : String
  created : String
deriving DecidableEq, Repr

/-- The header row written at file creation and by clear_csv_cache. -/
def CSV_HEADERS : List String := ["username", "email", "password", "role", "created"]

/-- The storage file: its header line and its data rows, in file order. -/
structure CsvFile where
  header : List String
  rows : List AdminRecord
deriving DecidableEq, Repr

/-- The file as first created (lines 26-31): only the header row. -/
def initialCsvFile : CsvFile := { header := CSV_HEADERS, rows := [] }

/-- `clear_csv_cache` (lines 33-38): reopen with mode "w" (truncate) and write
the header row; registered with atexit (line 41). -/
def clear_csv_cache (f : CsvFile) : CsvFile := initialCsvFile

/-- A structured HTTP response: status code, the `success` flag and the
optional `message` of the JSON body. A bare `jsonify(...)` has status 200. -/
structure HttpResponse where
  status : Nat
  success : Bool
  message : Option String
deriving DecidableEq, Repr

/-- One access to the storage file performed by a handler. -/
inductive FileOp where
  | read : FileOp
  | append : FileOp
deriving DecidableEq, Repr

/-- The POST /save_admin handler (lines 55-94), on the parsed request body and
the current file contents. Returns the response, the file afterwards, and the
ordered list of file accesses the call performed: validation (lines 66-67)
happens before the file is opened; the duplicate scan (lines 70-74) is one
read; the DictWriter append (lines 86-88) is one append, writing the cells of
`new_admin` in the order username, email, password, role, created. -/
def save_admin (data : Payload) (f : CsvFile) :
    HttpResponse × CsvFile × List FileOp :=
  let username := dictGet data "username"
  let email := dictGet data "email"
  let password := dictGet data "password"
  let role := dictGet data "role"
  if !(truthyOpt username) || !(truthyOpt email) ||
     !(truthyOpt password) || !(truthyOpt role) then
    ({ status := 400, success := false, message := some "All fields are required" },
     f, [])
  else if f.rows.any (fun row => rowEmailMatches row.email email) then
    ({ status := 409, success := false,
       message := some "Admin with this email already exists" },
     f, [FileOp.read])
  else
    ({ status := 200, success := true, message := some "Admin saved successfully" },
     { f with
       rows := f.rows ++
         [{ username := cellOpt username
            email := cellOpt email
            password := cellOpt password
            role := cellOpt role
            created := JVal.toCellString ((dictGet data "created").getD (.jstr "")) }] },
     [FileOp.read, FileOp.append])

/-- The GET /load_admins handler (lines 96-106): DictReader over the whole
file, returning every data row in file order. -/
def load_admins (f : CsvFile) : List AdminRecord := f.rows

/-! ## Record-level candidates -/

/-- A candidate admin record as the spec's data model describes submissions:
the four required text fields and the optional `created` timestamp. -/
structure Candidate where
  username : String
  email : String
  password : String
  role : String
  created : Option String
deriving DecidableEq, Repr

/-- The JSON body a candidate record is submitted as: exactly the record's
fields, `created` present only when supplied. -/
def Candidate.toPayload (c : Candidate) : Payload :=
  [("username", JVal.jstr c.username), ("email", JVal.jstr c.email),
   ("password", JVal.jstr c.password), ("role", JVal.jstr c.role)] ++
  (match c.created with
   | some s => [("created", JVal.jstr s)]
   | none => [])

/-- The stored row a successful append of `c` produces. -/
def Candidate.toRecord (c : Candidate) : AdminRecord :=
  { username := c.username, email := c.email, password := c.password,
    role := c.role, created := c.created.getD "" }

/-- The append operation of the record service on a candidate record:
save_admin on the candidate's request body (the file-op trace dropped). -/
def appendAdmin (c : Candidate) (f : CsvFile) : HttpResponse × CsvFile :=
  let r := save_admin c.toPayload f
  (r.1, r.2.1)

/-- The candidate-validity check of lines 66-67, at the record level: all four
required fields non-empty. -/
def validCandidate (c : Candidate) : Prop :=
  c.username ≠ "" ∧ c.email ≠ "" ∧ c.password ≠ "" ∧ c.role ≠ ""

instance (c : Candidate) : Decidable (validCandidate c) := by
  unfold validCandidate; infer_instance

/-! ## Operation sequences and reachability -/

/-- An operation of the system's lifetime: a record append (POST /save_admin,
carrying an arbitrary parsed JSON body), a listing (GET /load_admins, which
does not write), or the atexit hook. -/
inductive Op where
  | append : Payload → Op
  | list : Op
  | clear : Op

/-- The effect of one operation on the storage file. -/
def applyOp (f : CsvFile) : Op → CsvFile
  | .append p => (save_admin p f).2.1
  | .list => f
  | .clear => clear_csv_cache f

/-- The storage file after running a sequence of operations from the freshly
created header-only file. -/
def run (ops : List Op) : CsvFile :=
  ops.foldl applyOp initialCsvFile

/-- Every append of the sequence submits the request body of a candidate
record in the sense of the spec's data model: the four required text fields
and an optional text `created`, nothing else. -/
def recordLevel (ops : List Op) : Prop :=
  ∀ p : Payload, Op.append p ∈ ops → ∃ c : Candidate, p = c.toPayload

/-- No two rows of the file share an email. -/
def uniqueEmails (f : CsvFile) : Prop :=
  f.rows.Pairwise (fun a b => a.email ≠ b.email)

instance (f : CsvFile) : Decidable (uniqueEmails f) := by
  unfold uniqueEmails; infer_instance

/-- Folding the append operation over a list of candidate submissions. -/
def runAppends (cs : List Candidate) (f : CsvFile) : CsvFile :=
  cs.foldl (fun g c => (appendAdmin c g).2) f

/-- `data.get(k)` is absent or the empty string. -/
def missingOrEmpty (p : Payload) (k : String) : Prop :=
  dictGet p k = none ∨ dictGet p k = some (JVal.jstr "")

/-- `data.get(k)` is falsy in Python's sense: absent, `None`, `""`, `0` or
`False`. -/
def falsyField (p : Payload) (k : String) : Prop :=
  truthyOpt (dictGet p k) = false

instance (p : Payload) (k : String) : Decidable (missingOrEmpty p k) := by
  unfold missingOrEmpty; infer_instance

instance (p : Payload) (k : String) : Decidable (falsyField p k) := by
  unfold falsyField; infer_instance

/-! ## Bridge lemmas: save_admin on a candidate's payload -/

theorem toPayload_get_username (c : Candidate) :
    dictGet c.toPayload "username" = some (JVal.jstr c.username) := by
  rcases c with ⟨u, e, p, r, cr⟩
  cases cr <;> rfl

theorem toPayload_get_email (c : Candidate) :
    dictGet c.toPayload "email" = some (JVal.jstr c.email) := by
  rcases c with ⟨u, e, p, r, cr⟩
  cases cr <;> rfl

theorem toPayload_get_password (c : Candidate) :
    dictGet c.toPayload "password" = some (JVal.jstr c.password) := by
  rcases c with ⟨u, e, p, r, cr⟩
  cases cr <;> rfl

theorem toPayload_get_role (c : Candidate) :
    dictGet c.toPayload "role" = some (JVal.jstr c.role) := by
  rcases c with ⟨u, e, p, r, cr⟩
  cases cr <;> rfl

theorem toPayload_get_created (c : Candidate) :
    dictGet c.toPayload "created" = c.created.map JVal.jstr := by
  rcases c with ⟨u, e, p, r, cr⟩
  cases cr <;> rfl

theorem truthyOpt_jstr (s : String) :
    truthyOpt (some (JVal.jstr s)) = !(s == "") := rfl

theorem rowEmailMatches_jstr (cell t : String) :
    rowEmailMatches cell (some (JVal.jstr t)) = (cell == t) := rfl

theorem appendAdmin_invalid (c : Candidate) (f : CsvFile)
    (h : c.username = "" ∨ c.email = "" ∨ c.password = "" ∨ c.role = "") :
    appendAdmin c f =
      ({ status := 400, success := false, message := some "All fields are required" },
       f) := by
  unfold appendAdmin save_admin
  rw [toPayload_get_username, toPayload_get_email, toPayload_get_password,
    toPayload_get_role]
  rcases h with h | h | h | h <;> simp [truthyOpt, JVal.truthy, h]

theorem appendAdmin_conflict (c : Candidate) (f : CsvFile)
    (hv : validCandidate c) (hd : ∃ r ∈ f.rows, r.email = c.email) :
    appendAdmin c f =
      ({ status := 409, success := false,
         message := some "Admin with this email already exists" },
       f) := by
  obtain ⟨hu, he, hp, hr⟩ := hv
  unfold appendAdmin save_admin
  rw [toPayload_get_username, toPayload_get_email, toPayload_get_password,
    toPayload_get_role]
  have hany : f.rows.any (fun row => rowEmailMatches row.email
      (some (JVal.jstr c.email))) = true := by
    simp only [List.any_eq_true, rowEmailMatches_jstr, beq_iff_eq]
    exact hd
  simp [truthyOpt, JVal.truthy, hu, he, hp, hr, hany]

theorem appendAdmin_success (c : Candidate) (f : CsvFile)
    (hv : validCandidate c) (hd : ∀ r ∈ f.rows, r.email ≠ c.email) :
    appendAdmin c f =
      ({ status := 200, success := true, message := some "Admin saved successfully" },
       { f with rows := f.rows ++ [c.toRecord] }) := by
  obtain ⟨hu, he, hp, hr⟩ := hv
  unfold appendAdmin save_admin
  rw [toPayload_get_username, toPayload_get_email, toPayload_get_password,
    toPayload_get_role, toPayload_get_created]
  have hany : f.rows.any (fun row => rowEmailMatches row.email
      (some (JVal.jstr c.email))) = false := by
    simp only [List.any_eq_false, rowEmailMatches_jstr, beq_iff_eq]
    exact hd
  simp only [truthyOpt, JVal.truthy, hu, he, hp, hr, hany]
  rcases hcr : c.created with _ | s <;>
    simp [Candidate.toRecord, cellOpt, JVal.toCellString, hcr, hu, he, hp, hr]

/-! ## Claim theorems -/

/-- Claim C1. The spec says configuration selection never fails and maps any
unrecognized or absent indicator to the development profile. The code's dict
subscript `config[env]` has no fallback: an unrecognized indicator such as
"staging" hits no key and selection fails (Python `KeyError`), even though the
dict defines an (unused) `'default'` entry for exactly that purpose. An absent
indicator does resolve to the development profile via `os.getenv`'s default. -/
theorem config_lookup_fails_on_unrecognized_env :
    selectConfig (some "staging") = none ∧
    selectConfig none = some DevelopmentConfig ∧
    selectConfig (some "testing") = some TestingConfig ∧
    selectConfig (some "production") = some ProductionConfig := by
  refine ⟨rfl, rfl, rfl, rfl⟩

/-- Claim C2. The spec says the testing profile redirects the storage file to
a separate path. The handlers open the module-level `csv_file_path`, which is
computed from `BASE_DIR` only: for every base directory the path used under
the testing profile equals the one used under development and production (all
of them `.../src/models/data/users.csv`), even though `TestingConfig` declares
a distinct `CSV_FILE_PATH` that the server never reads. -/
theorem storage_path_ignores_profile :
    (∀ baseDir : String,
      storagePathFor "testing" baseDir = storagePathFor "development" baseDir ∧
      storagePathFor "testing" baseDir = storagePathFor "production" baseDir ∧
      storagePathFor "testing" baseDir =
        baseDir ++ "/src/models/data/users.csv") ∧
    TestingConfig.CSV_FILE_PATH ≠ Config.CSV_FILE_PATH := by
  constructor
  · intro baseDir
    refine ⟨rfl, rfl, ?_⟩
    simp [storagePathFor, csv_file_path, DATA_DIR, pathJoin, String.append_assoc]
  · decide

/-- Claim C3. A candidate with all four required fields non-empty whose email
is not yet in the file is appended successfully, and a subsequent List returns
a record whose fields equal the submitted values, `created` defaulting to the
empty string when not supplied. -/
theorem append_then_list_roundtrip (c : Candidate) (f : CsvFile)
    (hv : validCandidate c) (hd : ∀ r ∈ f.rows, r.email ≠ c.email) :
    (appendAdmin c f).1.success = true ∧
    ∃ r ∈ load_admins (appendAdmin c f).2,
      r.username = c.username ∧ r.email = c.email ∧ r.password = c.password ∧
      r.role = c.role ∧ r.created = c.created.getD "" := by
  rw [appendAdmin_success c f hv hd]
  refine ⟨rfl, c.toRecord, ?_, rfl, rfl, rfl, rfl, rfl⟩
  simp [load_admins]

/-- Witness for C3: appending alice to the fresh file. -/
theorem append_then_list_roundtrip_witness :
    (appendAdmin ⟨"alice", "a@x.com", "p", "admin", none⟩ initialCsvFile).1.success
      = true ∧
    ∃ r ∈ load_admins
        (appendAdmin ⟨"alice", "a@x.com", "p", "admin", none⟩ initialCsvFile).2,
      r.username = "alice" ∧ r.email = "a@x.com" ∧ r.password = "p" ∧
      r.role = "admin" ∧ r.created = (none : Option String).getD "" :=
  append_then_list_roundtrip ⟨"alice", "a@x.com", "p", "admin", none⟩
    initialCsvFile (by decide) (by decide)

/-- Counterexample to claim C4 as stated. The claim quantifies over every
candidate whose email is already present; a candidate whose username is empty
but whose email duplicates an existing row is rejected by the validation check
with the 400 client-input error, not with the conflict error, because the
validation on lines 66-67 runs before the duplicate scan on lines 70-74. -/
theorem duplicate_email_without_validation_not_conflict :
    (({ header := CSV_HEADERS,
        rows := [⟨"alice", "a@x.com", "p", "admin", ""⟩] } : CsvFile).rows.any
      (fun r => r.email == "a@x.com") = true) ∧
    (appendAdmin ⟨"", "a@x.com", "q", "admin", none⟩
        { header := CSV_HEADERS,
          rows := [⟨"alice", "a@x.com", "p", "admin", ""⟩] }).1.status = 400 ∧
    (appendAdmin ⟨"", "a@x.com", "q", "admin", none⟩
        { header := CSV_HEADERS,
          rows := [⟨"alice", "a@x.com", "p", "admin", ""⟩] }).1.status ≠ 409 := by
  refine ⟨by decide, by decide, by decide⟩

/-- Claim C4, amended: for every file state and every candidate with the four
required fields non-empty whose email equals the email of a record already in
the file, Append returns the 409 conflict error with a message and leaves the
file unchanged. -/
theorem duplicate_email_conflict (c : Candidate) (f : CsvFile)
    (hv : validCandidate c) (hd : ∃ r ∈ f.rows, r.email = c.email) :
    (appendAdmin c f).1.status = 409 ∧
    (appendAdmin c f).1.message = some "Admin with this email already exists" ∧
    (appendAdmin c f).2 = f := by
  rw [appendAdmin_conflict c f hv hd]
  exact ⟨rfl, rfl, rfl⟩

/-- Witness for C4's amended theorem: resubmitting alice's email. -/
theorem duplicate_email_conflict_witness :
    (appendAdmin ⟨"bob", "a@x.com", "q", "user", none⟩
        { header := CSV_HEADERS,
          rows := [⟨"alice", "a@x.com", "p", "admin", ""⟩] }).1.status = 409 ∧
    (appendAdmin ⟨"bob", "a@x.com", "q", "user", none⟩
        { header := CSV_HEADERS,
          rows := [⟨"alice", "a@x.com", "p", "admin", ""⟩] }).1.message
      = some "Admin with this email already exists" ∧
    (appendAdmin ⟨"bob", "a@x.com", "q", "user", none⟩
        { header := CSV_HEADERS,
          rows := [⟨"alice", "a@x.com", "p", "admin", ""⟩] }).2
      = { header := CSV_HEADERS,
          rows := [⟨"alice", "a@x.com", "p", "admin", ""⟩] } :=
  duplicate_email_conflict ⟨"bob", "a@x.com", "q", "user", none⟩
    { header := CSV_HEADERS, rows := [⟨"alice", "a@x.com", "p", "admin", ""⟩] }
    (by decide) (by decide)

theorem append_preserves_uniqueEmails (c : Candidate) (f : CsvFile)
    (h : uniqueEmails f) : uniqueEmails (appendAdmin c f).2 := by
  by_cases hv : validCandidate c
  · by_cases hd : ∃ r ∈ f.rows, r.email = c.email
    · rw [appendAdmin_conflict c f hv hd]; exact h
    · push_neg at hd
      rw [appendAdmin_success c f hv hd]
      unfold uniqueEmails at h ⊢
      rw [List.pairwise_append]
      refine ⟨h, List.pairwise_singleton _ _, ?_⟩
      intro a ha b hb
      rw [List.mem_singleton] at hb
      subst hb
      exact hd a ha
  · unfold validCandidate at hv
    push_neg at hv
    by_cases hu : c.username = ""
    · rw [appendAdmin_invalid c f (Or.inl hu)]; exact h
    · by_cases he : c.email = ""
      · rw [appendAdmin_invalid c f (Or.inr (Or.inl he))]; exact h
      · by_cases hp : c.password = ""
        · rw [appendAdmin_invalid c f (Or.inr (Or.inr (Or.inl hp)))]; exact h
        · rw [appendAdmin_invalid c f (Or.inr (Or.inr (Or.inr (hv hu he hp))))]
          exact h

theorem uniqueEmails_initial : uniqueEmails initialCsvFile :=
  List.Pairwise.nil

theorem applyOp_append_toPayload (c : Candidate) (f : CsvFile) :
    applyOp f (Op.append c.toPayload) = (appendAdmin c f).2 := rfl

theorem foldl_applyOp_unique (ops : List Op) :
    ∀ f : CsvFile, recordLevel ops → uniqueEmails f →
      uniqueEmails (ops.foldl applyOp f) := by
  induction ops with
  | nil => intro f _ hf; exact hf
  | cons op rest ih =>
    intro f h hf
    have hrest : recordLevel rest := fun p hp =>
      h p (List.mem_cons_of_mem _ hp)
    rcases op with p | _ | _
    · obtain ⟨c, hc⟩ := h p (List.mem_cons_self _ _)
      subst hc
      rw [List.foldl_cons, applyOp_append_toPayload]
      exact ih _ hrest (append_preserves_uniqueEmails c f hf)
    · exact ih _ hrest hf
    · exact ih _ hrest uniqueEmails_initial

/-- Counterexample to claim C5 as stated. The endpoint accepts arbitrary JSON:
a body whose email is the number 5 passes the truthiness validation (`not 5`
is false), the duplicate scan compares the stored cell string with the JSON
value (Python's `"5" == 5` is false) and never matches, and the csv writer
stores the cell `str(5) = "5"`. Submitting that body twice therefore reaches
a file whose two rows share the email cell "5". -/
theorem duplicate_email_cells_reachable :
    ¬ uniqueEmails (run
      [Op.append [("username", JVal.jstr "u"), ("email", JVal.jnum 5),
        ("password", JVal.jstr "p"), ("role", JVal.jstr "r")],
       Op.append [("username", JVal.jstr "u"), ("email", JVal.jnum 5),
        ("password", JVal.jstr "p"), ("role", JVal.jstr "r")]]) := by
  decide

/-- Claim C5, amended: restricted to sequences whose appends submit candidate
records in the spec's data-model sense (string-valued fields), every state
reachable from the freshly created header-only file by Append, List and
lifecycle-hook operations has pairwise-distinct email values: the duplicate
scan refuses a string email already present, List leaves the file untouched,
and the hook resets it to the empty state. (Without the restriction the
invariant fails: a truthy non-string email such as the number 5 slips past
the type-strict duplicate comparison.) -/
theorem record_submissions_preserve_unique_emails (ops : List Op)
    (h : recordLevel ops) : uniqueEmails (run ops) :=
  foldl_applyOp_unique ops initialCsvFile h uniqueEmails_initial

/-- Witness for C5's amended theorem: alice, a listing, then bob. -/
theorem record_submissions_preserve_unique_emails_witness :
    uniqueEmails (run
      [Op.append (Candidate.toPayload ⟨"alice", "a@x.com", "p", "admin", none⟩),
       Op.list,
       Op.append (Candidate.toPayload ⟨"bob", "b@x.com", "q", "user", none⟩)]) :=
  record_submissions_preserve_unique_emails
    [Op.append (Candidate.toPayload ⟨"alice", "a@x.com", "p", "admin", none⟩),
     Op.list,
     Op.append (Candidate.toPayload ⟨"bob", "b@x.com", "q", "user", none⟩)]
    (by
      intro p hp
      simp only [List.mem_cons, List.not_mem_nil, or_false] at hp
      rcases hp with hp | hp | hp
      · injection hp with h1
        exact ⟨⟨"alice", "a@x.com", "p", "admin", none⟩, h1⟩
      · exact Op.noConfusion hp
      · injection hp with h1
        exact ⟨⟨"bob", "b@x.com", "q", "user", none⟩, h1⟩)

theorem runAppends_spec (cs : List Candidate) : ∀ f : CsvFile,
    (∀ c ∈ cs, validCandidate c) →
    cs.Pairwise (fun a b => a.email ≠ b.email) →
    (∀ c ∈ cs, ∀ r ∈ f.rows, r.email ≠ c.email) →
    (runAppends cs f).rows = f.rows ++ cs.map Candidate.toRecord ∧
    (runAppends cs f).header = f.header := by
  induction cs with
  | nil => intro f h1 h2 h3; simp [runAppends]
  | cons c rest ih =>
    intro f h1 h2 h3
    have hv : validCandidate c := h1 c (List.mem_cons_self c rest)
    have hd : ∀ r ∈ f.rows, r.email ≠ c.email :=
      h3 c (List.mem_cons_self c rest)
    have hstep : runAppends (c :: rest) f =
        runAppends rest { f with rows := f.rows ++ [c.toRecord] } := by
      unfold runAppends
      rw [List.foldl_cons, appendAdmin_success c f hv hd]
    rw [hstep]
    have h1r : ∀ d ∈ rest, validCandidate d := fun d hdm =>
      h1 d (List.mem_cons_of_mem c hdm)
    have h2r : rest.Pairwise (fun a b => a.email ≠ b.email) :=
      (List.pairwise_cons.mp h2).2
    have hne : ∀ d ∈ rest, c.email ≠ d.email := (List.pairwise_cons.mp h2).1
    have h3r : ∀ d ∈ rest,
        ∀ r ∈ ({ f with rows := f.rows ++ [c.toRecord] } : CsvFile).rows,
          r.email ≠ d.email := by
      intro d hdm r hr
      rcases List.mem_append.mp hr with hr | hr
      · exact h3 d (List.mem_cons_of_mem c hdm) r hr
      · rw [List.mem_singleton] at hr
        subst hr
        exact hne d hdm
    obtain ⟨hrows, hheader⟩ :=
      ih { f with rows := f.rows ++ [c.toRecord] } h1r h2r h3r
    constructor
    · rw [hrows]; simp
    · rw [hheader]

/-- Claim C6. Appending a sequence of valid candidates with pairwise-distinct
emails to the fresh file and then listing yields exactly the submitted records
in submission order, each under the five-column header schema. -/
theorem distinct_appends_list_exact (cs : List Candidate)
    (h1 : ∀ c ∈ cs, validCandidate c)
    (h2 : cs.Pairwise (fun a b => a.email ≠ b.email)) :
    load_admins (runAppends cs initialCsvFile) = cs.map Candidate.toRecord ∧
    (runAppends cs initialCsvFile).header = CSV_HEADERS := by
  have h3 : ∀ c ∈ cs, ∀ r ∈ initialCsvFile.rows, r.email ≠ c.email := by
    intro c hc r hr
    simp [initialCsvFile] at hr
  obtain ⟨hrows, hheader⟩ := runAppends_spec cs initialCsvFile h1 h2 h3
  constructor
  · rw [load_admins, hrows]; simp [initialCsvFile]
  · rw [hheader]; rfl

/-- Witness for C6: alice then bob, the second with an explicit timestamp. -/
theorem distinct_appends_list_exact_witness :
    load_admins (runAppends
      [⟨"alice", "a@x.com", "p", "admin", none⟩,
       ⟨"bob", "b@x.com", "q", "user", some "2024-01-01"⟩] initialCsvFile) =
      [⟨"alice", "a@x.com", "p", "admin", none⟩,
       ⟨"bob", "b@x.com", "q", "user", some "2024-01-01"⟩].map Candidate.toRecord ∧
    (runAppends
      [⟨"alice", "a@x.com", "p", "admin", none⟩,
       ⟨"bob", "b@x.com", "q", "user", some "2024-01-01"⟩] initialCsvFile).header
      = CSV_HEADERS :=
  distinct_appends_list_exact
    [⟨"alice", "a@x.com", "p", "admin", none⟩,
     ⟨"bob", "b@x.com", "q", "user", some "2024-01-01"⟩]
    (by decide) (by decide)

theorem truthy_false_of_missingOrEmpty {p : Payload} {k : String}
    (h : missingOrEmpty p k) : truthyOpt (dictGet p k) = false := by
  rcases h with h | h <;> rw [h] <;> rfl

/-- Claim C7. An Append request in which any of username, email, password or
role is absent or the empty string is rejected with the 400 client-input
error and its message, and the file is unchanged. -/
theorem missing_field_rejected_unchanged (p : Payload) (f : CsvFile)
    (h : missingOrEmpty p "username" ∨ missingOrEmpty p "email" ∨
         missingOrEmpty p "password" ∨ missingOrEmpty p "role") :
    (save_admin p f).1 =
      { status := 400, success := false, message := some "All fields are required" } ∧
    (save_admin p f).2.1 = f := by
  rcases h with h | h | h | h <;>
    simp [save_admin, truthy_false_of_missingOrEmpty h]

/-- Witness for C7: a request whose username key is absent. -/
theorem missing_field_rejected_unchanged_witness :
    (save_admin [("email", JVal.jstr "a@x.com"), ("password", JVal.jstr "p"),
      ("role", JVal.jstr "admin")] initialCsvFile).1 =
      { status := 400, success := false, message := some "All fields are required" } ∧
    (save_admin [("email", JVal.jstr "a@x.com"), ("password", JVal.jstr "p"),
      ("role", JVal.jstr "admin")] initialCsvFile).2.1 = initialCsvFile :=
  missing_field_rejected_unchanged
    [("email", JVal.jstr "a@x.com"), ("password", JVal.jstr "p"),
     ("role", JVal.jstr "admin")] initialCsvFile (Or.inl (by decide))

/-- Claim C8. The atexit hook rewrites the storage file to exactly the header
row username,email,password,role,created with no data rows, whatever the file
held before. -/
theorem clear_resets_to_header_only (f : CsvFile) :
    (clear_csv_cache f).header =
      ["username", "email", "password", "role", "created"] ∧
    (clear_csv_cache f).rows = [] :=
  ⟨rfl, rfl⟩

theorem dictGet_cons_of_ne (k key : String) (v : JVal) (p : Payload)
    (h : k ≠ key) : dictGet ((k, v) :: p) key = dictGet p key := by
  simp [dictGet, h]

/-- Claim C9. save_admin reads only the keys username, email, password, role
and created of the request body: adding a binding for any other key to the
payload changes nothing about the response, the resulting file, or the file
accesses, so extra keys are never persisted nor visible in later List
results. -/
theorem extra_payload_keys_discarded (k : String) (v : JVal) (p : Payload)
    (f : CsvFile)
    (h : k ∉ ["username", "email", "password", "role", "created"]) :
    save_admin ((k, v) :: p) f = save_admin p f := by
  simp only [List.mem_cons, List.not_mem_nil, or_false, not_or] at h
  obtain ⟨h1, h2, h3, h4, h5⟩ := h
  simp only [save_admin, dictGet_cons_of_ne _ _ _ _ h1,
    dictGet_cons_of_ne _ _ _ _ h2, dictGet_cons_of_ne _ _ _ _ h3,
    dictGet_cons_of_ne _ _ _ _ h4, dictGet_cons_of_ne _ _ _ _ h5]

/-- Witness for C9: an extra isAdmin key on alice's request. -/
theorem extra_payload_keys_discarded_witness :
    save_admin (("isAdmin", JVal.jbool true) ::
      [("username", JVal.jstr "alice"), ("email", JVal.jstr "a@x.com"),
       ("password", JVal.jstr "p"), ("role", JVal.jstr "admin")]) initialCsvFile =
    save_admin
      [("username", JVal.jstr "alice"), ("email", JVal.jstr "a@x.com"),
       ("password", JVal.jstr "p"), ("role", JVal.jstr "admin")] initialCsvFile :=
  extra_payload_keys_discarded "isAdmin" (JVal.jbool true)
    [("username", JVal.jstr "alice"), ("email", JVal.jstr "a@x.com"),
     ("password", JVal.jstr "p"), ("role", JVal.jstr "admin")]
    initialCsvFile (by decide)

/-- Claim C10. When any required field of the request is falsy (absent, null,
empty string, 0 or false), save_admin answers with status 400, leaves the file
unchanged, and performs no file access at all: the validation on lines 66-67
returns before either `open(csv_file_path, ...)` is reached. -/
theorem falsy_field_no_file_access (p : Payload) (f : CsvFile)
    (h : falsyField p "username" ∨ falsyField p "email" ∨
         falsyField p "password" ∨ falsyField p "role") :
    (save_admin p f).1.status = 400 ∧ (save_admin p f).2.1 = f ∧
    (save_admin p f).2.2 = [] := by
  unfold falsyField at h
  rcases h with h | h | h | h <;> simp [save_admin, h]

/-- Witness for C10: a request whose role is the number 0. -/
theorem falsy_field_no_file_access_witness :
    (save_admin [("username", JVal.jstr "u"), ("email", JVal.jstr "e"),
      ("password", JVal.jstr "pw"), ("role", JVal.jnum 0)]
      initialCsvFile).1.status = 400 ∧
    (save_admin [("username", JVal.jstr "u"), ("email", JVal.jstr "e"),
      ("password", JVal.jstr "pw"), ("role", JVal.jnum 0)]
      initialCsvFile).2.1 = initialCsvFile ∧
    (save_admin [("username", JVal.jstr "u"), ("email", JVal.jstr "e"),
      ("password", JVal.jstr "pw"), ("role", JVal.jnum 0)]
      initialCsvFile).2.2 = [] :=
  falsy_field_no_file_access
    [("username", JVal.jstr "u"), ("email", JVal.jstr "e"),
     ("password", JVal.jstr "pw"), ("role", JVal.jnum 0)]
    initialCsvFile (Or.inr (Or.inr (Or.inr (by decide))))

end QEDemo
